import Mathlib

/-!
Shallow embedding of the nestjs_practice repository, covering:

* the JWT token service (`src/modules/auth/services/token.service.ts`),
* the auth orchestration service (`src/modules/auth/auth.service.ts`) and the
  earlier revision with `generateRefreshToken` (provided among the unnamed
  source files),
* the refresh-token controller handler (`src/modules/auth/auth.controller.ts`),
* the cache-aside repository wrapper (`repositoryCache`, unnamed part_000)
  with `TTLConfig` (unnamed part_017),
* the Redis service's key-value operations and advisory lock
  (`src/common/redis/redis.service.ts`),
* the users service (`src/modules/users/services/user.service.ts`).

Asynchrony is flattened: each `async` method becomes a pure function from its
inputs (and the explicit states it touches: the Redis store contents, the user
collection, the current clock) to its result and the updated states.  External
I/O results (Okta responses, bcrypt comparison outcomes, Mongo-generated ids)
are passed in as parameters.  JavaScript `null`/`undefined` becomes `Option`;
thrown `UnauthorizedException`/`ConflictException` become `Except` errors.
-/

namespace NestJS

/-- Error classes thrown by the auth/users services:
`UnauthorizedException` and `ConflictException` from `@nestjs/common`. -/
inductive AuthErr where
  | unauthorized
  | conflict
deriving DecidableEq, Repr

/-! ## JWT model

The repository signs and verifies tokens through the `@nestjs/jwt`
`JwtService`, which wraps the `jsonwebtoken` library.  We model its documented
semantics: `sign(payload, {secret, expiresIn})` produces a token whose
signature binds the payload to the signing secret and whose `exp` claim is the
signing time plus the configured duration; `verify(token, {secret})` succeeds
exactly when the token's signature checks out under the supplied secret and
the token is not yet expired, and otherwise throws.  A token is an opaque
string at runtime; we model it as the data its signature commits to.  The
TypeScript generic on `verify<T>` is a compile-time cast with no runtime
check, so verification is untyped: the payload is a sum of the three claim
shapes used in the repository. -/

/-- Access-token claims (`TokenPayload` in `token.service.ts`). -/
structure TokenPayload where
  sub : String
  username : String
  email : String
  authProvider : String
  roles : List String
deriving DecidableEq, Repr

/-- Refresh-token claims (`RefreshTokenPayload` in `token.service.ts`). -/
structure RefreshTokenPayload where
  sub : String
  username : String
deriving DecidableEq, Repr

/-- Id-token claims (`IdTokenPayload` in `token.service.ts`). -/
structure IdTokenPayload where
  sub : String
  email : String
  username : String
  authProvider : String
deriving DecidableEq, Repr

/-- The untyped payload actually carried by a signed token. -/
inductive Claims where
  | access : TokenPayload → Claims
  | refresh : RefreshTokenPayload → Claims
  | id : IdTokenPayload → Claims
deriving DecidableEq, Repr

/-- A signed JWT: the claims, the secret the signature binds them to, and the
absolute expiry instant (`exp` = issue time + configured duration). -/
structure Jwt where
  payload : Claims
  secret : String
  exp : Nat
deriving DecidableEq, Repr

namespace JwtService

/-- `jwtService.sign(payload, { secret, expiresIn })` at clock `now`. -/
def sign (payload : Claims) (secret : String) (expiresIn : Nat) (now : Nat) : Jwt :=
  { payload := payload, secret := secret, exp := now + expiresIn }

/-- `jwtService.verify(token, { secret })` at clock `now`: succeeds iff the
signature verifies under `secret` and the token has not expired. -/
def verify (token : Jwt) (secret : String) (now : Nat) : Option Claims :=
  if token.secret = secret ∧ now < token.exp then some token.payload else none

end JwtService

/-- The JWT-related environment configuration read through `ConfigService`:
`JWT_SECRET`, `JWT_EXPIRES_IN`, `JWT_REFRESH_SECRET`,
`JWT_REFRESH_EXPIRES_IN`, `JWT_ID_TOKEN_EXPIRES_IN`.  Note the configuration
defines no separate id-token secret. -/
structure JwtConfig where
  jwtSecret : String
  jwtExpiresIn : Nat
  jwtRefreshSecret : String
  jwtRefreshExpiresIn : Nat
  jwtIdTokenExpiresIn : Nat
deriving DecidableEq, Repr

/-- The token set returned by `generateTokens` (`SSOTokens` in
`sso-provider.interface.ts`). -/
structure SSOTokens where
  accessToken : Jwt
  refreshToken : Jwt
  idToken : Jwt
deriving DecidableEq, Repr

/-! ## TokenService (`src/modules/auth/services/token.service.ts`) -/

namespace TokenService

/-- `generateAccessToken`: signs with `JWT_SECRET` / `JWT_EXPIRES_IN`. -/
def generateAccessToken (cfg : JwtConfig) (payload : TokenPayload) (now : Nat) : Jwt :=
  JwtService.sign (.access payload) cfg.jwtSecret cfg.jwtExpiresIn now

/-- `generateRefreshToken`: signs with `JWT_REFRESH_SECRET` /
`JWT_REFRESH_EXPIRES_IN`. -/
def generateRefreshToken (cfg : JwtConfig) (payload : RefreshTokenPayload) (now : Nat) : Jwt :=
  JwtService.sign (.refresh payload) cfg.jwtRefreshSecret cfg.jwtRefreshExpiresIn now

/-- `generateIdToken`: signs with `JWT_SECRET` (the access token's secret, per
line 97 of `token.service.ts`) and `JWT_ID_TOKEN_EXPIRES_IN`. -/
def generateIdToken (cfg : JwtConfig) (payload : IdTokenPayload) (now : Nat) : Jwt :=
  JwtService.sign (.id payload) cfg.jwtSecret cfg.jwtIdTokenExpiresIn now

/-- Input to `generateTokens`; `roles` is optional and defaults to `[]`. -/
structure GenerateTokensInput where
  userId : String
  username : String
  email : String
  authProvider : String
  roles : Option (List String)
deriving DecidableEq, Repr

/-- `generateTokens`: issues the full access/refresh/id token set. -/
def generateTokens (cfg : JwtConfig) (p : GenerateTokensInput) (now : Nat) : SSOTokens :=
  let roles := p.roles.getD []
  { accessToken := generateAccessToken cfg
      { sub := p.userId, username := p.username, email := p.email
        authProvider := p.authProvider, roles := roles } now
    refreshToken := generateRefreshToken cfg
      { sub := p.userId, username := p.username } now
    idToken := generateIdToken cfg
      { sub := p.userId, email := p.email, username := p.username
        authProvider := p.authProvider } now }

/-- `verifyAccessToken`: verifies under `JWT_SECRET`. -/
def verifyAccessToken (cfg : JwtConfig) (token : Jwt) (now : Nat) : Option Claims :=
  JwtService.verify token cfg.jwtSecret now

/-- `verifyRefreshToken`: verifies under `JWT_REFRESH_SECRET`. -/
def verifyRefreshToken (cfg : JwtConfig) (token : Jwt) (now : Nat) : Option Claims :=
  JwtService.verify token cfg.jwtRefreshSecret now

end TokenService

/-! ## Redis key-value store model
(`src/common/redis/redis.service.ts`)

The store maps keys to values with an optional absolute expiry (milliseconds,
as `Date.now()`): `setEx key ttl value` expires `ttl` seconds after the write,
`SET ... PXAT ts` expires at the absolute instant `ts`, and Redis treats a key
whose expiry has passed as absent.  Cached documents travel through
`JSON.stringify`/`JSON.parse`; for the JSON-representable documents stored
here that round-trip is the identity and the serialized form of a document is
a non-empty string, so the store is parametrized by the value type `V` and a
stored value is truthy iff present. -/

/-- One stored entry: the value and its optional absolute expiry (ms). -/
structure Entry (V : Type) where
  value : V
  expireAt : Option Nat
deriving DecidableEq, Repr

/-- The Redis keyspace, as an association list keyed by `String`. -/
abbrev RedisStore (V : Type) : Type := List (String × Entry V)

namespace RedisStore

/-- Raw lookup, ignoring expiry. -/
def lookup {V} (st : RedisStore V) (key : String) : Option (Entry V) :=
  (st.find? (fun kv => kv.1 = key)).map (·.2)

/-- An entry is live at `now` iff it has no expiry or its expiry is still in
the future (Redis removes a key once its expiry instant is reached). -/
def Entry.live {V} (e : Entry V) (now : Nat) : Bool :=
  match e.expireAt with
  | none => true
  | some t => now < t

/-- Write `key` to `value` with expiry `expireAt`, replacing any previous
entry for the key. -/
def put {V} (st : RedisStore V) (key : String) (value : V)
    (expireAt : Option Nat) : RedisStore V :=
  (key, ⟨value, expireAt⟩) :: st.filter (fun kv => kv.1 ≠ key)

/-- `redisService.del(key)`. -/
def del {V} (st : RedisStore V) (key : String) : RedisStore V :=
  st.filter (fun kv => kv.1 ≠ key)

/-- `redisService.get(key)` at clock `now`: the value if the key is present
and live, otherwise `null`. -/
def get {V} (st : RedisStore V) (key : String) (now : Nat) : Option V :=
  match lookup st key with
  | some e => if Entry.live e now then some e.value else none
  | none => none

/-- `redisService.set(key, value, ttl?)`: a truthy `ttl` (present and
non-zero) selects `setEx` (relative expiry in seconds), otherwise a plain
`SET` with no expiry. -/
def set {V} (st : RedisStore V) (key : String) (value : V)
    (ttl : Option Nat) (now : Nat) : RedisStore V :=
  match ttl with
  | some t => if t = 0 then put st key value none
              else put st key value (some (now + t * 1000))
  | none => put st key value none

/-- `redisService.setAndExpireAt(key, value, expiry)`: `SET` with `PXAT`, an
absolute expiry timestamp in milliseconds. -/
def setAndExpireAt {V} (st : RedisStore V) (key : String) (value : V)
    (expiry : Nat) : RedisStore V :=
  put st key value (some expiry)

/-- `redisService.acquireLock(key, value, ttl)`: `SET key value NX EX ttl`;
returns whether the lock was acquired, with the updated store. -/
def acquireLock (st : RedisStore String) (key value : String) (ttl : Nat)
    (now : Nat) : Bool × RedisStore String :=
  match get st key now with
  | some _ => (false, st)
  | none => (true, put st key value (some (now + ttl * 1000)))

/-- `redisService.releaseLock(key, value)`: reads the key and deletes it only
when the current value equals the caller's owner value. -/
def releaseLock (st : RedisStore String) (key value : String)
    (now : Nat) : RedisStore String :=
  match get st key now with
  | some currentValue => if currentValue = value then del st key else st
  | none => st

end RedisStore

/-! ## TTL configuration (`ttl.config.ts`, unnamed part_017) -/

namespace TTLConfig

/-- `TTLConfig.duration.hourly` — the default cache TTL, in seconds. -/
def duration.hourly : Nat := 3600

end TTLConfig

/-! ## Cache-aside wrapper (`repositoryCache`, unnamed part_000) -/

/-- `CacheExpiry = number | Date`: a relative TTL in seconds, or an absolute
expiry instant (a `Date`, modelled by its `getTime()` milliseconds). -/
inductive CacheExpiry where
  | ttlSecs : Nat → CacheExpiry
  | at : Nat → CacheExpiry
deriving DecidableEq, Repr

namespace RepositoryCache

/-- `expiry || TTLConfig.duration.hourly`: JavaScript falsiness — an absent
expiry or a numeric TTL of `0` falls back to the one-hour default (a `Date`
object is always truthy). -/
def orDefault (expiry : Option CacheExpiry) : CacheExpiry :=
  match expiry with
  | none => .ttlSecs TTLConfig.duration.hourly
  | some (.ttlSecs 0) => .ttlSecs TTLConfig.duration.hourly
  | some e => e

/-- `setCacheWithExpiry(cacheKey, data, expiry)`: a numeric expiry is a
relative TTL (`redisService.set`); a `Date` expiry already in the past is
skipped with a warning (the store is left untouched), otherwise the write
uses the absolute-expiry `setAndExpireAt`. -/
def setCacheWithExpiry {V} (st : RedisStore V) (cacheKey : String) (data : V)
    (expiry : CacheExpiry) (now : Nat) : RedisStore V :=
  match expiry with
  | .ttlSecs n => RedisStore.set st cacheKey data (some n) now
  | .at ts => if ts ≤ now then st else RedisStore.setAndExpireAt st cacheKey data ts

/-- Observable outcome of one `findWithCache` call: the returned value, the
Redis store afterwards, and how many times the fetch operation ran. -/
structure FindResult (V : Type) where
  result : Option V
  store : RedisStore V
  fetchCount : Nat
deriving DecidableEq, Repr

/-- `findWithCache(cacheKey, fetchOperation, expiry?)` at clock `now`: on a
live cached value, return it without running `fetchOperation`; on a miss run
`fetchOperation`, and if its result is non-null cache it under the supplied
expiry or the one-hour default before returning it. -/
def findWithCache {V} (st : RedisStore V) (cacheKey : String)
    (fetchOperation : Unit → Option V) (expiry : Option CacheExpiry)
    (now : Nat) : FindResult V :=
  match RedisStore.get st cacheKey now with
  | some cached => ⟨some cached, st, 0⟩
  | none =>
    match fetchOperation () with
    | some data =>
      ⟨some data, setCacheWithExpiry st cacheKey data (orDefault expiry) now, 1⟩
    | none => ⟨none, st, 1⟩

/-- `createWithCache(cacheKey, createOperation, ttl?)`: run the create; on a
truthy result cache it with the supplied or default one-hour TTL. -/
def createWithCache {V} (st : RedisStore V) (cacheKey : String)
    (created : Option V) (ttl : Option Nat) (now : Nat) :
    Option V × RedisStore V :=
  match created with
  | some data =>
    (some data,
      RedisStore.set st cacheKey data
        (some (match ttl with
               | none => TTLConfig.duration.hourly
               | some 0 => TTLConfig.duration.hourly
               | some t => t)) now)
  | none => (none, st)

end RepositoryCache

/-! ## Users (`src/modules/users`) -/

/-- `CreateUserDto` (`create-user.dto.ts`). -/
structure CreateUserDto where
  username : String
  email : String
  password : String
  authProvider : Option String
  externalId : Option String
  employeeID : String
deriving DecidableEq, Repr

/-- A persisted user document (`user.schema.ts` fields used by the flows
modelled here). -/
structure UserDocument where
  id : String
  username : String
  email : String
  password : String
  authProvider : Option String
  externalId : Option String
  employeeID : String
  isActive : Bool
deriving DecidableEq, Repr

/-- `AuthUser` (`user-provider.interface.ts`): the minimal identity
projection consumed by the auth core. -/
structure AuthUser where
  id : String
  username : String
  email : String
  password : String
  authProvider : Option String
  isActive : Bool
deriving DecidableEq, Repr

/-- `CacheKeyFactory.user.byEmail` (`cache-key.factory.ts`). -/
def CacheKeyFactory.user.byEmail (email : String) : String :=
  "user:email:" ++ email

/-- State touched by the users service: the persisted user collection and the
Redis cache of user documents. -/
structure UsersState where
  users : List UserDocument
  cache : RedisStore UserDocument
deriving DecidableEq, Repr

namespace UsersService

/-- `toAuthUser` (`user.service.ts`). -/
def toAuthUser (u : UserDocument) : AuthUser :=
  { id := u.id, username := u.username, email := u.email
    password := u.password, authProvider := u.authProvider
    isActive := u.isActive }

/-- `findByEmail(email)`: `userRepository.findOne({ email, isActive: true })`
projected through `toAuthUser`; returns `null` when no active user matches. -/
def findByEmail (users : List UserDocument) (email : String) : Option AuthUser :=
  (users.find? (fun u => u.email = email ∧ u.isActive)).map toAuthUser

/-- `userRepository.create({...dto, isActive: true})`; the Mongo-generated
`_id` is passed in as `newId`. -/
def repoCreate (dto : CreateUserDto) (newId : String) : UserDocument :=
  { id := newId, username := dto.username, email := dto.email
    password := dto.password, authProvider := dto.authProvider
    externalId := dto.externalId, employeeID := dto.employeeID
    isActive := true }

/-- `createUserWithCache(dto)`: conflict if `findByEmail` already resolves the
email, otherwise create the document, cache it under the email key via
`createWithCache`, and return it. -/
def createUserWithCache (st : UsersState) (dto : CreateUserDto)
    (newId : String) (now : Nat) :
    Except AuthErr UserDocument × UsersState :=
  match findByEmail st.users dto.email with
  | some _ => (.error .conflict, st)
  | none =>
    let newUser := repoCreate dto newId
    let cacheKey := CacheKeyFactory.user.byEmail dto.email
    let (_, cache') :=
      RepositoryCache.createWithCache st.cache cacheKey (some newUser) none now
    (.ok newUser, { users := st.users ++ [newUser], cache := cache' })

/-- `createUser(dto)` of the `IUserProvider` implementation:
`createUserWithCache` projected through `toAuthUser`. -/
def createUser (st : UsersState) (dto : CreateUserDto) (newId : String)
    (now : Nat) : Except AuthErr AuthUser × UsersState :=
  match createUserWithCache st dto newId now with
  | (.ok u, st') => (.ok (toAuthUser u), st')
  | (.error e, st') => (.error e, st')

end UsersService

/-! ## Auth orchestration (`src/modules/auth/auth.service.ts`, the
provider-interface variant) -/

namespace AuthService

/-- `generateTokensForUser(user)`: the token set for a user, with the
`authProvider` or-else-`'other'` fallback (JavaScript falsiness: an absent or
empty provider falls back to `'other'`) and always `roles: []`. -/
def generateTokensForUser (cfg : JwtConfig) (user : AuthUser) (now : Nat) :
    SSOTokens :=
  TokenService.generateTokens cfg
    { userId := user.id, username := user.username, email := user.email
      authProvider :=
        match user.authProvider with
        | none => "other"
        | some p => if p = "" then "other" else p
      roles := some [] } now

/-- `signup(createUserDto)`: hash a truthy password, delegate creation to the
user provider, then issue the token set.  The bcrypt hash is passed in as the
function `hashFn` (bcrypt output is opaque to this layer). -/
def signup (cfg : JwtConfig) (hashFn : String → String) (st : UsersState)
    (dto : CreateUserDto) (newId : String) (now : Nat) :
    Except AuthErr SSOTokens × UsersState :=
  let dto' := if dto.password = "" then dto
              else { dto with password := hashFn dto.password }
  match UsersService.createUser st dto' newId now with
  | (.ok user, st') => (.ok (generateTokensForUser cfg user now), st')
  | (.error e, st') => (.error e, st')

/-- `signin(loginDto)`: look the user up by email (unauthorized when absent),
compare the password (unauthorized on mismatch), then issue the token set.
The outcome of `passwordService.compare` — bcrypt's salted comparison — is
supplied as the oracle `compare`. -/
def signin (cfg : JwtConfig) (compare : String → String → Bool)
    (users : List UserDocument) (email password : String) (now : Nat) :
    Except AuthErr SSOTokens :=
  match UsersService.findByEmail users email with
  | none => .error .unauthorized
  | some user =>
    if compare password user.password then
      .ok (generateTokensForUser cfg user now)
    else .error .unauthorized

/-- Okta user-info claims checked by `oktaLogin`; a missing claim is the
empty string (JavaScript falsiness of a missing field). -/
structure OktaUserInfo where
  sub : String
  email : String
  name : String
deriving DecidableEq, Repr

/-- `oktaLogin(code, user)`: reject a falsy code, exchange it (the provider's
user-info response is passed in as `userInfo`, `null` when absent), reject a
missing response or missing `sub`/`email`/`name` claims, then issue the local
token set for the already-resolved user. -/
def oktaLogin (cfg : JwtConfig) (code : String) (user : AuthUser)
    (userInfo : Option OktaUserInfo) (now : Nat) : Except AuthErr SSOTokens :=
  if code = "" then .error .unauthorized
  else
    match userInfo with
    | none => .error .unauthorized
    | some info =>
      if info.sub = "" ∨ info.email = "" ∨ info.name = "" then
        .error .unauthorized
      else .ok (generateTokensForUser cfg user now)

/-- `refreshTokens(email)`: look the user up by email (unauthorized when
absent) and issue a fresh token set. -/
def refreshTokens (cfg : JwtConfig) (users : List UserDocument)
    (email : String) (now : Nat) : Except AuthErr SSOTokens :=
  match UsersService.findByEmail users email with
  | none => .error .unauthorized
  | some user => .ok (generateTokensForUser cfg user now)

/-- `generateRefreshToken(email)` of the earlier `AuthService` revision
(unnamed part_008): look the user up by email (unauthorized when absent) and
sign a `{sub, username}` payload with `JWT_REFRESH_SECRET` /
`JWT_REFRESH_EXPIRES_IN`. -/
def generateRefreshToken (cfg : JwtConfig) (users : List UserDocument)
    (email : String) (now : Nat) : Except AuthErr Jwt :=
  match UsersService.findByEmail users email with
  | none => .error .unauthorized
  | some user =>
    .ok (JwtService.sign (.refresh { sub := user.id, username := user.username })
          cfg.jwtRefreshSecret cfg.jwtRefreshExpiresIn now)

end AuthService

/-! ## Auth controller (`src/modules/auth/auth.controller.ts`) -/

/-- A `res.cookie(name, token, {...})` call made by the controller. -/
structure SetCookie where
  name : String
  token : Jwt
  httpOnly : Bool
  maxAgeMs : Nat
deriving DecidableEq, Repr

/-- The observable response of the refresh-token handler: the cookie it sets
and the JSON message body. -/
structure RefreshResponse where
  cookie : SetCookie
  message : String
deriving DecidableEq, Repr

namespace AuthController

/-- The `GET /auth/refresh-token` handler body: the `RefreshJwtGuard` has
already validated the refresh-token cookie and resolved `req.user`, whose
email is `userEmail`; the handler calls
`authService.generateRefreshToken(user.email)` and sets the resulting token
as the `refreshToken` cookie (http-only, 15-minute max-age). -/
def refreshTokenHandler (cfg : JwtConfig) (users : List UserDocument)
    (userEmail : String) (now : Nat) : Except AuthErr RefreshResponse :=
  match AuthService.generateRefreshToken cfg users userEmail now with
  | .error e => .error e
  | .ok token =>
    .ok { cookie := { name := "refreshToken", token := token
                      httpOnly := true, maxAgeMs := 15 * 60 * 1000 }
          message := "Refresh token successful" }

end AuthController

/-- The roles claim carried by a token set's access token, when that token
indeed carries access-token claims. -/
def accessRoles (toks : SSOTokens) : Option (List String) :=
  match toks.accessToken.payload with
  | .access p => some p.roles
  | _ => none

/-! ## Store lemmas -/

theorem RedisStore.get_put_self {V : Type} (st : RedisStore V) (key : String)
    (v : V) (e : Option Nat) (now : Nat) :
    RedisStore.get (RedisStore.put st key v e) key now =
      if RedisStore.Entry.live ⟨v, e⟩ now then some v else none := by
  simp [RedisStore.get, RedisStore.put, RedisStore.lookup]

/-! ## Claims -/

/-- C1: the claim that every one of the three token types is signed with its
own secret — in particular that the id token's secret differs from the access
token's — is false: at a concrete configuration and payload the id token is
signed with the access token's secret (`JWT_SECRET`), and consequently the id
token verifies under the access-token secret. -/
theorem C1_counterexample :
    (TokenService.generateTokens ⟨"access-secret", 900, "refresh-secret", 2592000, 86400⟩
        ⟨"u1", "alice", "a@x.com", "other", none⟩ 0).idToken.secret =
      (TokenService.generateTokens ⟨"access-secret", 900, "refresh-secret", 2592000, 86400⟩
        ⟨"u1", "alice", "a@x.com", "other", none⟩ 0).accessToken.secret ∧
    (TokenService.verifyAccessToken ⟨"access-secret", 900, "refresh-secret", 2592000, 86400⟩
        (TokenService.generateTokens ⟨"access-secret", 900, "refresh-secret", 2592000, 86400⟩
          ⟨"u1", "alice", "a@x.com", "other", none⟩ 0).idToken 0).isSome := by
  decide

/-- C1 (amended): the access and refresh tokens are signed with distinct
configured secrets (`JWT_SECRET`, `JWT_REFRESH_SECRET`) and each of the three
token types has its own configured expiry duration, and access and refresh
tokens do not verify under each other's secrets; the id token, however, is
signed with the access token's secret `JWT_SECRET` rather than a distinct
one, so it verifies under the access-token secret. -/
theorem C1_token_secrets_and_expiries (cfg : JwtConfig)
    (p : TokenService.GenerateTokensInput) (now : Nat)
    (hsec : cfg.jwtSecret ≠ cfg.jwtRefreshSecret) :
    (TokenService.generateTokens cfg p now).accessToken.secret = cfg.jwtSecret ∧
    (TokenService.generateTokens cfg p now).refreshToken.secret = cfg.jwtRefreshSecret ∧
    (TokenService.generateTokens cfg p now).idToken.secret = cfg.jwtSecret ∧
    (TokenService.generateTokens cfg p now).accessToken.exp = now + cfg.jwtExpiresIn ∧
    (TokenService.generateTokens cfg p now).refreshToken.exp = now + cfg.jwtRefreshExpiresIn ∧
    (TokenService.generateTokens cfg p now).idToken.exp = now + cfg.jwtIdTokenExpiresIn ∧
    TokenService.verifyAccessToken cfg
      (TokenService.generateTokens cfg p now).refreshToken now = none ∧
    TokenService.verifyRefreshToken cfg
      (TokenService.generateTokens cfg p now).accessToken now = none ∧
    TokenService.verifyRefreshToken cfg
      (TokenService.generateTokens cfg p now).idToken now = none := by
  refine ⟨rfl, rfl, rfl, rfl, rfl, rfl, ?_, ?_, ?_⟩ <;>
    simp [TokenService.generateTokens, TokenService.verifyAccessToken,
      TokenService.verifyRefreshToken, TokenService.generateAccessToken,
      TokenService.generateRefreshToken, TokenService.generateIdToken,
      JwtService.sign, JwtService.verify, hsec, Ne.symm hsec]

/-- Witness for C1 (amended) at a concrete configuration and payload. -/
theorem C1_token_secrets_and_expiries_witness :
    ("access-secret" : String) ≠ "refresh-secret" ∧
    TokenService.verifyRefreshToken ⟨"access-secret", 900, "refresh-secret", 2592000, 86400⟩
      (TokenService.generateTokens ⟨"access-secret", 900, "refresh-secret", 2592000, 86400⟩
        ⟨"u1", "alice", "a@x.com", "other", none⟩ 0).accessToken 0 = none :=
  ⟨by decide,
   (C1_token_secrets_and_expiries ⟨"access-secret", 900, "refresh-secret", 2592000, 86400⟩
     ⟨"u1", "alice", "a@x.com", "other", none⟩ 0 (by decide)).2.2.2.2.2.2.2.1⟩

/-- C8: a token produced by the token service (access or refresh) is accepted
by the corresponding verify operation — yielding back its payload — at any
instant before its expiry, and is rejected from its expiry instant on or when
verified under any secret other than its own. -/
theorem C8_token_roundtrip (cfg : JwtConfig) (p : TokenPayload)
    (r : RefreshTokenPayload) (now t : Nat) (s : String) :
    (t < now + cfg.jwtExpiresIn →
      TokenService.verifyAccessToken cfg
        (TokenService.generateAccessToken cfg p now) t = some (.access p)) ∧
    (now + cfg.jwtExpiresIn ≤ t →
      TokenService.verifyAccessToken cfg
        (TokenService.generateAccessToken cfg p now) t = none) ∧
    (s ≠ cfg.jwtSecret →
      JwtService.verify (TokenService.generateAccessToken cfg p now) s t = none) ∧
    (t < now + cfg.jwtRefreshExpiresIn →
      TokenService.verifyRefreshToken cfg
        (TokenService.generateRefreshToken cfg r now) t = some (.refresh r)) ∧
    (now + cfg.jwtRefreshExpiresIn ≤ t →
      TokenService.verifyRefreshToken cfg
        (TokenService.generateRefreshToken cfg r now) t = none) ∧
    (s ≠ cfg.jwtRefreshSecret →
      JwtService.verify (TokenService.generateRefreshToken cfg r now) s t = none) := by
  unfold TokenService.verifyAccessToken TokenService.verifyRefreshToken
    TokenService.generateAccessToken TokenService.generateRefreshToken
    JwtService.sign JwtService.verify
  refine ⟨fun h => ?_, fun h => ?_, fun h => ?_, fun h => ?_, fun h => ?_, fun h => ?_⟩
  · simp [h]
  · simp [Nat.not_lt.mpr h]
  · simp [Ne.symm h]
  · simp [h]
  · simp [Nat.not_lt.mpr h]
  · simp [Ne.symm h]

/-- Witness for C8: the concrete access token issued at time 0 with a
15-minute expiry verifies at time 10, no longer verifies at time 900, and
does not verify under the refresh secret. -/
theorem C8_token_roundtrip_witness :
    TokenService.verifyAccessToken ⟨"access-secret", 900, "refresh-secret", 2592000, 86400⟩
      (TokenService.generateAccessToken ⟨"access-secret", 900, "refresh-secret", 2592000, 86400⟩
        ⟨"u1", "alice", "a@x.com", "other", []⟩ 0) 10 =
      some (.access ⟨"u1", "alice", "a@x.com", "other", []⟩) ∧
    TokenService.verifyAccessToken ⟨"access-secret", 900, "refresh-secret", 2592000, 86400⟩
      (TokenService.generateAccessToken ⟨"access-secret", 900, "refresh-secret", 2592000, 86400⟩
        ⟨"u1", "alice", "a@x.com", "other", []⟩ 0) 900 = none ∧
    JwtService.verify
      (TokenService.generateAccessToken ⟨"access-secret", 900, "refresh-secret", 2592000, 86400⟩
        ⟨"u1", "alice", "a@x.com", "other", []⟩ 0) "refresh-secret" 10 = none ∧
    TokenService.verifyRefreshToken ⟨"access-secret", 900, "refresh-secret", 2592000, 86400⟩
      (TokenService.generateRefreshToken ⟨"access-secret", 900, "refresh-secret", 2592000, 86400⟩
        ⟨"u1", "alice"⟩ 0) 10 = some (.refresh ⟨"u1", "alice"⟩) :=
  ⟨(C8_token_roundtrip ⟨"access-secret", 900, "refresh-secret", 2592000, 86400⟩
      ⟨"u1", "alice", "a@x.com", "other", []⟩ ⟨"u1", "alice"⟩ 0 10 "refresh-secret").1
      (by decide),
   (C8_token_roundtrip ⟨"access-secret", 900, "refresh-secret", 2592000, 86400⟩
      ⟨"u1", "alice", "a@x.com", "other", []⟩ ⟨"u1", "alice"⟩ 0 900 "refresh-secret").2.1
      (by decide),
   (C8_token_roundtrip ⟨"access-secret", 900, "refresh-secret", 2592000, 86400⟩
      ⟨"u1", "alice", "a@x.com", "other", []⟩ ⟨"u1", "alice"⟩ 0 10 "refresh-secret").2.2.1
      (by decide),
   (C8_token_roundtrip ⟨"access-secret", 900, "refresh-secret", 2592000, 86400⟩
      ⟨"u1", "alice", "a@x.com", "other", []⟩ ⟨"u1", "alice"⟩ 0 10 "refresh-secret").2.2.2.1
      (by decide)⟩

/-- C3: `findWithCache` on a live cached value returns it without running the
fetch operation; on a miss where the fetch returns a non-null value and no
expiry is supplied, it caches that value with the default one-hour TTL (3600
seconds), and any subsequent read of the same key strictly within that TTL
window returns the value from cache without running its fetch operation. -/
theorem C3_findWithCache_read_through {V : Type} (st : RedisStore V)
    (key : String) (f : Unit → Option V) (now : Nat) :
    (∀ (v : V) (expiry : Option CacheExpiry), RedisStore.get st key now = some v →
      RepositoryCache.findWithCache st key f expiry now = ⟨some v, st, 0⟩) ∧
    (∀ (d : V), RedisStore.get st key now = none → f () = some d →
      RepositoryCache.findWithCache st key f none now =
        ⟨some d, RedisStore.put st key d (some (now + 3600 * 1000)), 1⟩ ∧
      ∀ (f2 : Unit → Option V) (now2 : Nat), now ≤ now2 → now2 < now + 3600 * 1000 →
        RepositoryCache.findWithCache
            (RedisStore.put st key d (some (now + 3600 * 1000))) key f2 none now2 =
          ⟨some d, RedisStore.put st key d (some (now + 3600 * 1000)), 0⟩) := by
  constructor
  · intro v expiry h
    simp [RepositoryCache.findWithCache, h]
  · intro d hmiss hf
    constructor
    · simp [RepositoryCache.findWithCache, hmiss, hf, RepositoryCache.orDefault,
        RepositoryCache.setCacheWithExpiry, RedisStore.set, TTLConfig.duration.hourly]
    · intro f2 now2 _ hlt
      have hget : RedisStore.get (RedisStore.put st key d (some (now + 3600 * 1000)))
          key now2 = some d := by
        rw [RedisStore.get_put_self]
        simp [RedisStore.Entry.live, hlt]
      simp [RepositoryCache.findWithCache, hget]

/-- Witness for C3: a concrete miss at time 0 populates the cache with expiry
3 600 000 ms and the read at time 1000 is served from cache without running
the (different) fetch operation. -/
theorem C3_findWithCache_read_through_witness :
    RepositoryCache.findWithCache ([] : RedisStore Nat) "k" (fun _ => some 7) none 0 =
      ⟨some 7, RedisStore.put ([] : RedisStore Nat) "k" 7 (some (0 + 3600 * 1000)), 1⟩ ∧
    RepositoryCache.findWithCache
        (RedisStore.put ([] : RedisStore Nat) "k" 7 (some (0 + 3600 * 1000))) "k"
        (fun _ => none) none 1000 =
      ⟨some 7, RedisStore.put ([] : RedisStore Nat) "k" 7 (some (0 + 3600 * 1000)), 0⟩ ∧
    RepositoryCache.findWithCache [("k", ⟨5, none⟩)] "k" (fun _ => some 7) none 0 =
      ⟨some 5, [("k", ⟨5, none⟩)], 0⟩ :=
  ⟨((C3_findWithCache_read_through ([] : RedisStore Nat) "k" (fun _ => some 7) 0).2 7
      (by decide) rfl).1,
   ((C3_findWithCache_read_through ([] : RedisStore Nat) "k" (fun _ => some 7) 0).2 7
      (by decide) rfl).2 (fun _ => none) 1000 (by decide) (by decide),
   (C3_findWithCache_read_through [("k", ⟨5, none⟩)] "k" (fun _ => some 7) 0).1 5 none
      (by decide)⟩

/-- C4: a cache-aside read whose miss-path write is given an absolute expiry
timestamp already in the past performs no cache write (the store is
unchanged), raises no error, and still returns the fetched result. -/
theorem C4_past_absolute_expiry_skips_cache {V : Type} (st : RedisStore V)
    (key : String) (f : Unit → Option V) (d : V) (ts now : Nat)
    (hmiss : RedisStore.get st key now = none) (hf : f () = some d)
    (hpast : ts ≤ now) :
    RepositoryCache.findWithCache st key f (some (.at ts)) now = ⟨some d, st, 1⟩ := by
  simp [RepositoryCache.findWithCache, hmiss, hf, RepositoryCache.orDefault,
    RepositoryCache.setCacheWithExpiry, hpast]

/-- Witness for C4: at time 5000, a write with absolute expiry 5000 (not in
the future) leaves the empty store empty and returns the fetched value. -/
theorem C4_past_absolute_expiry_skips_cache_witness :
    RepositoryCache.findWithCache ([] : RedisStore Nat) "k" (fun _ => some 7)
      (some (.at 5000)) 5000 = ⟨some 7, [], 1⟩ :=
  C4_past_absolute_expiry_skips_cache ([] : RedisStore Nat) "k" (fun _ => some 7)
    7 5000 5000 (by decide) rfl (by decide)

/-- C5: when the fetch operation returns null on a cache miss,
`findWithCache` returns null, creates no cache entry (the store is
unchanged), and raises no error. -/
theorem C5_null_fetch_not_cached {V : Type} (st : RedisStore V) (key : String)
    (f : Unit → Option V) (expiry : Option CacheExpiry) (now : Nat)
    (hmiss : RedisStore.get st key now = none) (hf : f () = none) :
    RepositoryCache.findWithCache st key f expiry now = ⟨none, st, 1⟩ := by
  simp [RepositoryCache.findWithCache, hmiss, hf]

/-- Witness for C5 on the empty store with a null-returning fetch. -/
theorem C5_null_fetch_not_cached_witness :
    RepositoryCache.findWithCache ([] : RedisStore Nat) "k" (fun _ => none)
      none 0 = ⟨none, [], 1⟩ :=
  C5_null_fetch_not_cached ([] : RedisStore Nat) "k" (fun _ => none) none 0
    (by decide) rfl

/-- C6: when the signup email already resolves to an active user, the user
provider's create operation (`createUserWithCache`, and the `createUser`
wrapper the auth core calls) fails with a conflict error and leaves the
persisted state — user collection and cache alike — unchanged. -/
theorem C6_duplicate_email_conflict (st : UsersState) (dto : CreateUserDto)
    (newId : String) (now : Nat) (u : AuthUser)
    (h : UsersService.findByEmail st.users dto.email = some u) :
    UsersService.createUserWithCache st dto newId now = (.error .conflict, st) ∧
    UsersService.createUser st dto newId now = (.error .conflict, st) := by
  have h1 : UsersService.createUserWithCache st dto newId now = (.error .conflict, st) := by
    simp [UsersService.createUserWithCache, h]
  exact ⟨h1, by simp [UsersService.createUser, h1]⟩

/-- Witness for C6: creating `a@x.com` again while an active user with that
email is persisted yields a conflict and the unchanged state. -/
theorem C6_duplicate_email_conflict_witness :
    UsersService.createUserWithCache
        ⟨[⟨"u1", "alice", "a@x.com", "hash1", none, none, "E1", true⟩], []⟩
        ⟨"bob", "a@x.com", "hash2", none, none, "E2"⟩ "u2" 0 =
      (.error .conflict,
        ⟨[⟨"u1", "alice", "a@x.com", "hash1", none, none, "E1", true⟩], []⟩) :=
  (C6_duplicate_email_conflict
      ⟨[⟨"u1", "alice", "a@x.com", "hash1", none, none, "E1", true⟩], []⟩
      ⟨"bob", "a@x.com", "hash2", none, none, "E2"⟩ "u2" 0
      ⟨"u1", "alice", "a@x.com", "hash1", none, true⟩ (by decide)).1

/-- C7: `signin` raises unauthorized and issues no token when the email
resolves to no (active) user, and likewise when the email resolves to a user
but the supplied password fails the bcrypt comparison against the stored
hash; the `Except.error` result carries no token of any type. -/
theorem C7_signin_unauthorized (cfg : JwtConfig)
    (compare : String → String → Bool) (users : List UserDocument)
    (email password : String) (now : Nat) :
    (UsersService.findByEmail users email = none →
      AuthService.signin cfg compare users email password now = .error .unauthorized) ∧
    (∀ u, UsersService.findByEmail users email = some u →
      compare password u.password = false →
      AuthService.signin cfg compare users email password now = .error .unauthorized) := by
  constructor
  · intro h
    simp [AuthService.signin, h]
  · intro u h hc
    simp [AuthService.signin, h, hc]

/-- Witness for C7: a wrong password for the persisted user, and an unknown
email, both yield unauthorized. -/
theorem C7_signin_unauthorized_witness :
    AuthService.signin ⟨"access-secret", 900, "refresh-secret", 2592000, 86400⟩
      (fun p h => p == h)
      [⟨"u1", "alice", "a@x.com", "hash1", none, none, "E1", true⟩]
      "a@x.com" "wrong-password" 0 = .error .unauthorized ∧
    AuthService.signin ⟨"access-secret", 900, "refresh-secret", 2592000, 86400⟩
      (fun p h => p == h) [] "nobody@x.com" "pw" 0 = .error .unauthorized :=
  ⟨(C7_signin_unauthorized ⟨"access-secret", 900, "refresh-secret", 2592000, 86400⟩
      (fun p h => p == h)
      [⟨"u1", "alice", "a@x.com", "hash1", none, none, "E1", true⟩]
      "a@x.com" "wrong-password" 0).2
      ⟨"u1", "alice", "a@x.com", "hash1", none, true⟩ (by decide) (by decide),
   (C7_signin_unauthorized ⟨"access-secret", 900, "refresh-secret", 2592000, 86400⟩
      (fun p h => p == h) [] "nobody@x.com" "pw" 0).1 (by decide)⟩

/-- C9: `acquireLock` succeeds exactly when the key is absent (or expired) in
the store, and `releaseLock` deletes the key exactly when its current value
equals the caller's owner value — on a differing owner, or an absent key, the
store is left unchanged. -/
theorem C9_advisory_lock (st : RedisStore String) (key owner : String)
    (ttl now : Nat) :
    ((RedisStore.acquireLock st key owner ttl now).1 = true ↔
      RedisStore.get st key now = none) ∧
    (RedisStore.get st key now = none →
      RedisStore.acquireLock st key owner ttl now =
        (true, RedisStore.put st key owner (some (now + ttl * 1000)))) ∧
    (∀ cur, RedisStore.get st key now = some cur →
      RedisStore.acquireLock st key owner ttl now = (false, st)) ∧
    (RedisStore.get st key now = some owner →
      RedisStore.releaseLock st key owner now = RedisStore.del st key) ∧
    (∀ cur, RedisStore.get st key now = some cur → cur ≠ owner →
      RedisStore.releaseLock st key owner now = st) ∧
    (RedisStore.get st key now = none →
      RedisStore.releaseLock st key owner now = st) := by
  refine ⟨?_, fun h => ?_, fun cur h => ?_, fun h => ?_, fun cur h hne => ?_, fun h => ?_⟩
  · cases h : RedisStore.get st key now <;>
      simp [RedisStore.acquireLock, h]
  · simp [RedisStore.acquireLock, h]
  · simp [RedisStore.acquireLock, h]
  · simp [RedisStore.releaseLock, h]
  · simp [RedisStore.releaseLock, h, hne]
  · simp [RedisStore.releaseLock, h]

/-- Witness for C9: on the empty store the lock is acquired; releasing it as
its owner deletes the key; releasing it as a different owner leaves the
store unchanged. -/
theorem C9_advisory_lock_witness :
    RedisStore.acquireLock ([] : RedisStore String) "lock" "owner-1" 30 0 =
      (true, RedisStore.put ([] : RedisStore String) "lock" "owner-1" (some (0 + 30 * 1000))) ∧
    RedisStore.releaseLock [("lock", ⟨"owner-1", none⟩)] "lock" "owner-1" 0 =
      RedisStore.del [("lock", ⟨"owner-1", none⟩)] "lock" ∧
    RedisStore.releaseLock [("lock", ⟨"owner-1", none⟩)] "lock" "owner-2" 0 =
      [("lock", ⟨"owner-1", none⟩)] ∧
    RedisStore.acquireLock [("lock", ⟨"owner-1", none⟩)] "lock" "owner-2" 30 0 =
      (false, [("lock", ⟨"owner-1", none⟩)]) :=
  ⟨(C9_advisory_lock ([] : RedisStore String) "lock" "owner-1" 30 0).2.1 (by decide),
   (C9_advisory_lock [("lock", ⟨"owner-1", none⟩)] "lock" "owner-1" 0 0).2.2.2.1
      (by decide),
   (C9_advisory_lock [("lock", ⟨"owner-1", none⟩)] "lock" "owner-2" 0 0).2.2.2.2.1
      "owner-1" (by decide) (by decide),
   (C9_advisory_lock [("lock", ⟨"owner-1", none⟩)] "lock" "owner-2" 30 0).2.2.1
      "owner-1" (by decide)⟩

/-- C10: every token set issued by the provider-interface `AuthService` —
directly through `generateTokensForUser`, and hence through each of `signup`,
`signin`, `refreshTokens` and `oktaLogin` — carries an empty roles claim in
its access token, regardless of the user's actual roles. -/
theorem C10_access_token_roles_always_empty (cfg : JwtConfig) (user : AuthUser)
    (now : Nat) (hashFn : String → String) (st : UsersState)
    (dto : CreateUserDto) (newId : String) (compare : String → String → Bool)
    (users : List UserDocument) (email password code : String)
    (userInfo : Option AuthService.OktaUserInfo) :
    accessRoles (AuthService.generateTokensForUser cfg user now) = some [] ∧
    (∀ toks st2, AuthService.signup cfg hashFn st dto newId now = (.ok toks, st2) →
      accessRoles toks = some []) ∧
    (∀ toks, AuthService.signin cfg compare users email password now = .ok toks →
      accessRoles toks = some []) ∧
    (∀ toks, AuthService.refreshTokens cfg users email now = .ok toks →
      accessRoles toks = some []) ∧
    (∀ toks, AuthService.oktaLogin cfg code user userInfo now = .ok toks →
      accessRoles toks = some []) := by
  have base : ∀ u : AuthUser,
      accessRoles (AuthService.generateTokensForUser cfg u now) = some [] := fun u => rfl
  refine ⟨base user, ?_, ?_, ?_, ?_⟩
  · intro toks st2 h
    simp only [AuthService.signup] at h
    split at h
    · rename_i u2 st3 _
      simp only [Prod.mk.injEq, Except.ok.injEq] at h
      rw [← h.1]
      exact base u2
    · simp at h
  · intro toks h
    simp only [AuthService.signin] at h
    split at h
    · simp at h
    · rename_i u2 _
      split at h
      · injection h with h2
        rw [← h2]
        exact base u2
      · simp at h
  · intro toks h
    simp only [AuthService.refreshTokens] at h
    split at h
    · simp at h
    · rename_i u2 _
      injection h with h2
      rw [← h2]
      exact base u2
  · intro toks h
    simp only [AuthService.oktaLogin] at h
    split at h
    · simp at h
    · split at h
      · simp at h
      · split at h
        · simp at h
        · injection h with h2
          rw [← h2]
          exact base user

/-- Witness for C10: concrete successful signin and refresh issue token sets
whose access-token roles claim is empty, although the comparison oracle and
user collection are arbitrary concrete values. -/
theorem C10_access_token_roles_always_empty_witness :
    accessRoles (AuthService.generateTokensForUser
      ⟨"access-secret", 900, "refresh-secret", 2592000, 86400⟩
      ⟨"u1", "alice", "a@x.com", "hash1", none, true⟩ 0) = some [] ∧
    accessRoles (AuthService.generateTokensForUser
      ⟨"access-secret", 900, "refresh-secret", 2592000, 86400⟩
      ⟨"u1", "alice", "a@x.com", "hash1", some "okta", true⟩ 0) = some [] :=
  ⟨((C10_access_token_roles_always_empty
      ⟨"access-secret", 900, "refresh-secret", 2592000, 86400⟩
      ⟨"u1", "alice", "a@x.com", "hash1", none, true⟩ 0 id ⟨[], []⟩
      ⟨"alice", "a@x.com", "hash1", none, none, "E1"⟩ "u2" (fun p h => p == h)
      [⟨"u1", "alice", "a@x.com", "hash1", none, none, "E1", true⟩]
      "a@x.com" "hash1" "code-1" none).2.2.1
      (AuthService.generateTokensForUser
        ⟨"access-secret", 900, "refresh-secret", 2592000, 86400⟩
        ⟨"u1", "alice", "a@x.com", "hash1", none, true⟩ 0) rfl),
   ((C10_access_token_roles_always_empty
      ⟨"access-secret", 900, "refresh-secret", 2592000, 86400⟩
      ⟨"u1", "alice", "a@x.com", "hash1", some "okta", true⟩ 0 id ⟨[], []⟩
      ⟨"alice", "a@x.com", "hash1", none, none, "E1"⟩ "u2" (fun p h => p == h)
      [⟨"u1", "alice", "a@x.com", "hash1", some "okta", none, "E1", true⟩]
      "a@x.com" "hash1" "code-1" (some ⟨"sub1", "a@x.com", "Alice"⟩)).2.2.2.2
      (AuthService.generateTokensForUser
        ⟨"access-secret", 900, "refresh-secret", 2592000, 86400⟩
        ⟨"u1", "alice", "a@x.com", "hash1", some "okta", true⟩ 0) rfl)⟩

/-- C2: the claim that a valid refresh-token request makes the handler issue
a new access token and rotate the access-token cookie is false: at a concrete
configuration, user collection and request, the handler succeeds but the
cookie it sets is not named `accessToken` (it sets the `refreshToken`
cookie). -/
theorem C2_counterexample :
    ¬ (∀ (cfg : JwtConfig) (users : List UserDocument) (email : String) (now : Nat),
        (UsersService.findByEmail users email).isSome →
        ∃ r, AuthController.refreshTokenHandler cfg users email now = .ok r ∧
          r.cookie.name = "accessToken") := by
  intro hclaim
  rcases hclaim ⟨"access-secret", 900, "refresh-secret", 2592000, 86400⟩
      [⟨"u1", "alice", "a@x.com", "hash1", none, none, "E1", true⟩] "a@x.com" 0
      (by decide) with ⟨r, hr, hname⟩
  have hcomp : AuthController.refreshTokenHandler
      ⟨"access-secret", 900, "refresh-secret", 2592000, 86400⟩
      [⟨"u1", "alice", "a@x.com", "hash1", none, none, "E1", true⟩] "a@x.com" 0 =
      .ok ⟨⟨"refreshToken", ⟨.refresh ⟨"u1", "alice"⟩, "refresh-secret", 2592000⟩,
            true, 900000⟩, "Refresh token successful"⟩ := rfl
  rw [hcomp] at hr
  injection hr with hr2
  rw [← hr2] at hname
  exact absurd hname (by decide)

/-- C2 (amended): for every refresh-token request whose (guard-validated)
user email resolves to an active user, the handler issues a new refresh token
— the `{sub, username}` payload signed with `JWT_REFRESH_SECRET` — and
rotates the `refreshToken` cookie (http-only, 15-minute max-age); it does not
set the access-token cookie. -/
theorem C2_refresh_handler_rotates_refresh_cookie (cfg : JwtConfig)
    (users : List UserDocument) (email : String) (now : Nat) (u : AuthUser)
    (h : UsersService.findByEmail users email = some u) :
    AuthController.refreshTokenHandler cfg users email now =
      .ok ⟨⟨"refreshToken",
            JwtService.sign (.refresh ⟨u.id, u.username⟩)
              cfg.jwtRefreshSecret cfg.jwtRefreshExpiresIn now,
            true, 15 * 60 * 1000⟩, "Refresh token successful"⟩ := by
  simp [AuthController.refreshTokenHandler, AuthService.generateRefreshToken, h]

/-- Witness for C2 (amended) at a concrete configuration, user collection and
request time. -/
theorem C2_refresh_handler_rotates_refresh_cookie_witness :
    AuthController.refreshTokenHandler
      ⟨"access-secret", 900, "refresh-secret", 2592000, 86400⟩
      [⟨"u1", "alice", "a@x.com", "hash1", none, none, "E1", true⟩] "a@x.com" 0 =
      .ok ⟨⟨"refreshToken",
            JwtService.sign (.refresh ⟨"u1", "alice"⟩) "refresh-secret" 2592000 0,
            true, 15 * 60 * 1000⟩, "Refresh token successful"⟩ :=
  C2_refresh_handler_rotates_refresh_cookie
    ⟨"access-secret", 900, "refresh-secret", 2592000, 86400⟩
    [⟨"u1", "alice", "a@x.com", "hash1", none, none, "E1", true⟩] "a@x.com" 0
    ⟨"u1", "alice", "a@x.com", "hash1", none, true⟩ (by decide)

end NestJS
